import Mathlib

/-!
Verification development for the object-detection distillation repository.
The Python sources under `src/` (`utils/model_util.py`, `mimic_runner.py`,
`models/mimic/split_rcnn.py`, `cost_analyzer.py`) are shallowly embedded below:
pure functions become Lean functions, stateful code becomes explicit state
passing, the file system becomes a map from paths to stored values, and
tensor-valued modules become functions over abstract tensor types.
-/

/-! ## Checkpoint persistence (`src/utils/model_util.py`) -/

variable {M O S C A R β : Type}

/-- Modelled from the spec: `utils.misc_util.save_on_master` (imported by
`model_util.save_ckpt`) is not under `src/`.  Per the spec (section 4.4),
"Only a designated main worker persists checkpoints"; the write happens only
when the calling worker is the main one, otherwise the file system is
untouched. -/
def save_on_master (is_main : Bool) (v : β) (path : String)
    (fs : String → Option β) : String → Option β :=
  match is_main with
  | true => fun q => if q = path then some v else fs q
  | false => fs

/-- Modelled from the spec: `myutils.common.file_util.check_if_exists` is not
under `src/` (checkpoint file I/O is a thin wrapper treated as an external
collaborator, spec section 1); it tests whether a file exists at the path. -/
def check_if_exists (fs : String → Option β) (path : String) : Bool :=
  (fs path).isSome

/-- The persisted checkpoint structure written by `model_util.save_ckpt`
(lines 14-15): a dictionary with exactly the keys `model`, `optimizer`,
`lr_scheduler`, `config`, `args`.  The model entry stores the model's
state dict, embedded here as the model's parameter payload of type `M`. -/
structure Ckpt (M O S C A : Type) where
  model : M
  optimizer : O
  lr_scheduler : S
  config : C
  args : A

/-- One entry of the checkpoint dictionary written by `save_ckpt`, tagged by
which field it stores.  The `best` tag is the claim-side vocabulary for a
best-metric entry; `save_ckpt` never writes one (see `save_ckpt_dict`). -/
inductive CkptEntry (M O S C A R : Type) where
  | model (v : M)
  | optimizer (v : O)
  | lr_scheduler (v : S)
  | config (v : C)
  | args (v : A)
  | best (v : R)

/-- Whether a checkpoint dictionary entry is a best-metric entry. -/
def CkptEntry.isBest : CkptEntry M O S C A R → Bool
  | .best _ => true
  | _ => false

/-- The literal dictionary written by `model_util.save_ckpt` (lines 14-15):
`(\x7b'model': ..., 'optimizer': ..., 'lr_scheduler': ..., 'config': ...,
'args': ...\x7d)` — five keyed entries, in source order. -/
def save_ckpt_dict (model : M) (optimizer : O) (lr_scheduler : S)
    (config : C) (args : A) : List (String × CkptEntry M O S C A R) :=
  [("model", CkptEntry.model model),
   ("optimizer", CkptEntry.optimizer optimizer),
   ("lr_scheduler", CkptEntry.lr_scheduler lr_scheduler),
   ("config", CkptEntry.config config),
   ("args", CkptEntry.args args)]

/-- `model_util.save_ckpt` (lines 10-16): writes the checkpoint structure to
`output_file_path` via `save_on_master`.  Parent-directory creation and the
DistributedDataParallel unwrapping are I/O resp. identity on the embedded
parameter payload. -/
def save_ckpt (is_main : Bool) (model : M) (optimizer : O) (lr_scheduler : S)
    (config : C) (args : A) (output_file_path : String)
    (fs : String → Option (Ckpt M O S C A)) : String → Option (Ckpt M O S C A) :=
  save_on_master is_main ⟨model, optimizer, lr_scheduler, config, args⟩
    output_file_path fs

/-- Result of `model_util.load_ckpt`: the (possibly reloaded) states of the
model, optimizer and scheduler objects that were passed in, and the returned
pair.  `load_state_dict` on a passed object replaces its state with the
checkpoint's stored state. -/
structure LoadOut (M O S C A : Type) where
  model : Option M
  optimizer : Option O
  lr_scheduler : Option S
  ret : Option C × Option A

/-- `model_util.load_ckpt` (lines 19-30): if no file exists at the path it
returns `(None, None)` and touches nothing; otherwise it loads the stored
states into whichever of model/optimizer/lr_scheduler were passed and returns
`(ckpt[config], ckpt[args])`. -/
def load_ckpt (fs : String → Option (Ckpt M O S C A)) (ckpt_file_path : String)
    (model : Option M) (optimizer : Option O) (lr_scheduler : Option S) :
    LoadOut M O S C A :=
  match fs ckpt_file_path with
  | none => ⟨model, optimizer, lr_scheduler, (none, none)⟩
  | some k =>
    ⟨model.map (fun _ => k.model), optimizer.map (fun _ => k.optimizer),
     lr_scheduler.map (fun _ => k.lr_scheduler), (some k.config, some k.args)⟩

/-! ## Model factory (`model_util.get_model`, lines 33-45) -/

/-- The kind of model instance `get_model` builds and returns. -/
inductive ModelKind where
  | rcnn
  | yolo
deriving DecidableEq

/-- `model_util.get_model` (lines 33-45).  `rcnn.MODEL_CLASS_DICT` lives in
`models/org/rcnn.py`, which is not under `src/`; it is abstracted as the list
of its keys `rcnn_keys`.  A recognized R-CNN type yields an R-CNN model, a
type starting with "yolo" yields a YOLO model, anything else raises
`ValueError` (embedded as `Except.error`). -/
def get_model (rcnn_keys : List String) (model_type : String) :
    Except String ModelKind :=
  if model_type ∈ rcnn_keys then Except.ok ModelKind.rcnn
  else if model_type.startsWith "yolo" then Except.ok ModelKind.yolo
  else Except.error ("model_type " ++ model_type ++ " is not expected")

/-! ## Distillation training loop (`src/mimic_runner.py`) -/

/-- Modelled from the spec: the checkpoint written by the training loop.
`mimic_runner` imports `save_ckpt`/`load_ckpt` from the `models` package
(`from models import load_ckpt, get_model, save_ckpt`, line 11) whose
`__init__` is not under `src/`; per the spec (section 3) that checkpoint is a
"persisted snapshot of \x7bmodel parameters, optimizer state, scheduler
state, best metric, config\x7d", and `distill` passes `best_val_map` to the
save and unpacks it first from the load (lines 74 and 100). -/
structure TrainCkpt (M O S C A : Type) where
  model : M
  optimizer : O
  lr_scheduler : S
  best_value : ℚ
  config : C
  args : A

/-- Modelled from the spec: the `models`-package `save_ckpt` used by
`distill` (line 100), persisting the training checkpoint including the best
metric, on the main worker only. -/
def models_save_ckpt (is_main : Bool) (model : M) (optimizer : O)
    (lr_scheduler : S) (best_value : ℚ) (config : C) (args : A)
    (path : String) (fs : String → Option (TrainCkpt M O S C A)) :
    String → Option (TrainCkpt M O S C A) :=
  save_on_master is_main ⟨model, optimizer, lr_scheduler, best_value, config, args⟩
    path fs

/-- `distill`, lines 72-74: `best_val_map = 0.0`, then if a checkpoint file
exists at the student checkpoint path, the stored best value is loaded
(`best_val_map, _, _ = load_ckpt(...)`, the `models`-package load modelled
from the spec). -/
def distill_init_best (fs : String → Option (TrainCkpt M O S C A))
    (ckpt_file_path : String) : ℚ :=
  match fs ckpt_file_path with
  | none => 0
  | some k => k.best_value

/-- The mutable state the per-epoch checkpoint logic of `distill` acts on:
the tracked best validation bbox mAP and the checkpoint file system. -/
structure DistillState (M O S C A : Type) where
  best : ℚ
  fs : String → Option (TrainCkpt M O S C A)

/-- `distill`, lines 96-101 (one epoch's checkpoint step): after validation
produced `val_map`, if `val_map > best_val_map and is_main_process()` then
the best value is updated and the checkpoint is saved; otherwise nothing
happens and the loop proceeds.  The returned Boolean records whether the
persistence step wrote (i.e. whether `save_ckpt` was invoked). -/
def distill_epoch_step (is_main : Bool) (model : M) (optimizer : O)
    (lr_scheduler : S) (config : C) (args : A) (ckpt_file_path : String)
    (val_map : ℚ) (st : DistillState M O S C A) :
    DistillState M O S C A × Bool :=
  if st.best < val_map ∧ is_main = true then
    (⟨val_map,
      models_save_ckpt is_main model optimizer lr_scheduler val_map config args
        ckpt_file_path st.fs⟩, true)
  else (st, false)

/-- The epoch loop of `distill` (lines 82-101) restricted to its checkpoint
effects: starting from the loaded (or zero-initialized) best value, fold the
per-epoch step over the list of validation bbox mAPs, logging the mAP of
every epoch whose step wrote the checkpoint.  `distill_fold_step` is the
body of that fold: one epoch's checkpoint step plus the write log update. -/
def distill_fold_step (is_main : Bool) (model : M) (optimizer : O)
    (lr_scheduler : S) (config : C) (args : A) (ckpt_file_path : String)
    (acc : DistillState M O S C A × List ℚ) (v : ℚ) :
    DistillState M O S C A × List ℚ :=
  let r := distill_epoch_step is_main model optimizer lr_scheduler config
    args ckpt_file_path v acc.1
  (r.1, if r.2 then acc.2 ++ [v] else acc.2)

def distill_run (is_main : Bool) (model : M) (optimizer : O) (lr_scheduler : S)
    (config : C) (args : A) (ckpt_file_path : String)
    (fs : String → Option (TrainCkpt M O S C A)) (val_maps : List ℚ) :
    DistillState M O S C A × List ℚ :=
  val_maps.foldl
    (distill_fold_step is_main model optimizer lr_scheduler config args
      ckpt_file_path)
    (⟨distill_init_best fs ckpt_file_path, fs⟩, [])

/-! ## Distillation-mode flags (`distill` lines 86-93, `evaluate` lines 109-115) -/

/-- The flags `distill` and `evaluate` mutate on the model objects: the
teacher's and student's `distill_backbone_only` and the student's
`backbone.body.layer1.use_bottleneck_transformer`. -/
structure FlagState where
  teacher_dbo : Bool
  student_dbo : Bool
  student_ubt : Bool
deriving DecidableEq

/-- `distill`, lines 88-90, executed before the train phase of every epoch:
both models' `distill_backbone_only` are set to the configured flag and the
student's bottleneck transformer is disabled. -/
def distill_pre_train (distill_backbone_only : Bool) (_s : FlagState) :
    FlagState :=
  ⟨distill_backbone_only, distill_backbone_only, false⟩

/-- `distill`, lines 92-93, executed after the train phase and before the
per-epoch evaluation: only the student's `distill_backbone_only` is reset to
`False`, and the student's bottleneck transformer flag is restored to the
command-line setting.  The teacher's flag is not touched here. -/
def distill_post_train (use_bottleneck_transformer : Bool) (s : FlagState) :
    FlagState :=
  ⟨s.teacher_dbo, false, use_bottleneck_transformer⟩

/-- The flag state in which the per-epoch validation (line 94) runs: the
pre-train mutation followed by the post-train mutation. -/
def distill_epoch_flags (distill_backbone_only use_bottleneck_transformer : Bool)
    (s : FlagState) : FlagState :=
  distill_post_train use_bottleneck_transformer
    (distill_pre_train distill_backbone_only s)

/-- `evaluate`, lines 113-115 (the top-level test-time evaluation, run once
after training): both models' `distill_backbone_only` are set to `False` and
the student's bottleneck transformer flag to the command-line setting. -/
def evaluate_flags (use_bottleneck_transformer : Bool) (_s : FlagState) :
    FlagState :=
  ⟨false, false, use_bottleneck_transformer⟩

/-! ## Warmup learning-rate schedule (`distill_model`, lines 38-56) -/

/-- `distill_model`, line 44: `warmup_factor = 1.0 / 1000`. -/
def warmup_factor : ℚ := 1 / 1000

/-- `distill_model`, line 45: `warmup_iters = min(1000, len(data_loader) - 1)`
(Python integer arithmetic, so the subtraction is over ℤ). -/
def warmup_iters (data_loader_len : ℕ) : ℤ :=
  min 1000 ((data_loader_len : ℤ) - 1)

/-- `distill_model`, lines 42-46: a per-iteration warmup scheduler (with its
iteration count and factor) is installed when `epoch == 0`, and `lr_scheduler`
stays `None` otherwise. -/
def distill_model_warmup (epoch : ℕ) (data_loader_len : ℕ) :
    Option (ℤ × ℚ) :=
  if epoch = 0 then some (warmup_iters data_loader_len, warmup_factor)
  else none

/-- `distill_model`, lines 48-56: the loop body steps the warmup scheduler
once per batch when it is installed (`if lr_scheduler is not None`), so the
number of per-iteration learning-rate steps over the epoch is the number of
batches when `epoch == 0` and zero otherwise. -/
def per_iteration_lr_steps (epoch : ℕ) (data_loader_len : ℕ) : ℕ :=
  match distill_model_warmup epoch data_loader_len with
  | some _ => data_loader_len
  | none => 0

/-! ## Model splitting (`src/models/mimic/split_rcnn.py`)

Tensors, proposals, detections, ext-classifier payloads, loss values and the
RPN head module are abstract types `T P D E L RH`; each sub-module of the
detection model is embedded as a function over them, and Python floating
point is idealized as exact arithmetic. -/

variable {T P D E L RH : Type}

/-- One input image: its tensor payload and its spatial shape
(`img.shape[-2:]` is `(height, width)`). -/
structure InputImage (T : Type) where
  data : T
  height : ℕ
  width : ℕ

/-- The result of the R-CNN `transform` applied to a batch of images: the
batched tensor, its shape (`images.tensors.shape`) and the per-image resized
sizes (`images.image_sizes`). -/
structure TransformedImages (T : Type) where
  tensors : T
  tensorsShape : List ℕ
  image_sizes : List (ℕ × ℕ)

/-- The encoder half of the split layer `backbone.body.layer1`.  Its Python
forward returns a plain tensor when `ext_classifier` is `None`, and a pair of
an optional tensor (None stops the inference, `RcnnHead.forward` lines 30-34)
and the ext-classifier output when it is set; the two behaviours are embedded
as the fields `run` and `runExt`, selected on `ext_classifier`. -/
structure Layer1Encoder (T E : Type) where
  ext_classifier : Option E
  run : T → T
  runExt : T → Option T × E

/-- The documented encoder/decoder split-layer structure of
`backbone.body.layer1`. -/
structure SplitLayer1 (T E : Type) where
  encoder : Layer1Encoder T E
  decoder : T → T

/-- The attributes of `backbone.body` that the split reads and deletes.
`Option` models attribute presence: `del` sets a field to `none`, and
accessing a deleted attribute fails. -/
structure BackboneBody (T E : Type) where
  conv1 : Option (T → T)
  bn1 : Option (T → T)
  relu : Option (T → T)
  maxpool : Option (T → T)
  layer1 : Option (SplitLayer1 T E)

/-- The backbone (`rcnn_model.backbone`, an FPN-equipped body).  `runRest` is
its forward on the output of `layer1` once the stem and `layer1` have been
removed (remaining body layers plus FPN, returning the keyed feature maps);
`runRestExt` is the same when the body is an `ExtIntermediateLayerGetter`
(`RcnnTail.forward` lines 221-227), where a `none` feature dict stops the
inference. -/
structure Backbone (T E : Type) where
  body : BackboneBody T E
  extGetter : Bool
  runRest : T → List (String × T)
  runRestExt : T → Option (List (String × T)) × E

/-- The region-proposal network components the tail reads
(`RcnnTail.__init__` lines 202-208): the anchor generator's sizes and aspect
ratios, the RPN head module, and the proposal computation.  Modelled from the
spec for the behaviour: the torchvision `RegionProposalNetwork` and
`AnchorGenerator` that `ModifiedRegionProposalNetwork` and
`ModifiedAnchorGenerator` rebuild are not under `src/`; per the spec
(section 4.1) the modified classes only "convert [the sub-component] to
accept externally supplied shape/size metadata", so the original and the
rebuilt network are embedded as the same function `forward` of the image
sizes, the batched-tensor shape and the feature maps, returning the
proposals and the RPN losses. -/
structure Rpn (T P L RH : Type) where
  sizes : List ℕ
  aspect_ratios : List ℚ
  head : RH
  forward : List (ℕ × ℕ) → List ℕ → List (String × T) → P × List (String × L)

/-- The detection model handed to `split_rcnn_model`: transform,
backbone, RPN and RoI heads, with `postprocess` the transform's
detection postprocessing (`self.transform.postprocess`). -/
structure RcnnModel (T P D E L RH : Type) where
  transform : List (InputImage T) → TransformedImages T
  postprocess : D → List (ℕ × ℕ) → List (ℕ × ℕ) → D
  backbone : Backbone T E
  rpn : Rpn T P L RH
  roi_heads : List (String × T) → P → List (ℕ × ℕ) → D × List (String × L)

/-- The head sub-model built by `RcnnHead.__init__` (lines 14-22). -/
structure RcnnHead (T E : Type) where
  transform : List (InputImage T) → TransformedImages T
  layer0 : T → T
  layer1_encoder : Layer1Encoder T E
  bottleneck_transformer : Option (T → T)

/-- `RcnnHead.__init__` (lines 14-22): captures the transform, builds
`layer0 = Sequential(conv1, bn1, relu, maxpool)`, captures
`backbone.body.layer1.encoder`, then deletes the stem modules `conv1`, `bn1`,
`relu`, `maxpool` from the input model's backbone body in place.  Returns the
head together with the mutated model; `none` when the model lacks the
required attributes. -/
def RcnnHead.init (m : RcnnModel T P D E L RH) (bottleneck_transformer : Option (T → T)) :
    Option (RcnnHead T E × RcnnModel T P D E L RH) :=
  match m.backbone.body.conv1, m.backbone.body.bn1, m.backbone.body.relu,
      m.backbone.body.maxpool, m.backbone.body.layer1 with
  | some c, some b, some r, some mp, some l1 =>
    some (⟨m.transform, fun t => mp (r (b (c t))), l1.encoder, bottleneck_transformer⟩,
      { m with backbone := { m.backbone with body :=
        { m.backbone.body with
          conv1 := none
          bn1 := none
          relu := none
          maxpool := none } } })
  | _, _, _, _, _ => none

/-- The tail sub-model built by `RcnnTail.__init__` (lines 194-210). -/
structure RcnnTail (T P D E L RH : Type) where
  bottleneck_transformer : Option (T → T)
  layer1_decoder : T → T
  sub_backbone : Backbone T E
  rpn : Rpn T P L RH
  roi_heads : List (String × T) → P → List (ℕ × ℕ) → D × List (String × L)
  postprocess : D → List (ℕ × ℕ) → List (ℕ × ℕ) → D

/-- `RcnnTail.__init__` (lines 194-210): captures
`backbone.body.layer1.decoder`, deletes `backbone.body.layer1` from the input
model in place, takes the (now layer1-less) backbone as `sub_backbone`,
rebuilds the RPN from the original RPN's anchor sizes, aspect ratios and head
(`ModifiedAnchorGenerator` / `ModifiedRegionProposalNetwork`), and captures
`roi_heads` and `transform`.  Returns the tail together with the mutated
model; `none` when `layer1` is absent. -/
def RcnnTail.init (m : RcnnModel T P D E L RH) (bottleneck_transformer : Option (T → T)) :
    Option (RcnnTail T P D E L RH × RcnnModel T P D E L RH) :=
  match m.backbone.body.layer1 with
  | some l1 =>
    let m2 : RcnnModel T P D E L RH :=
      { m with backbone := { m.backbone with body :=
        { m.backbone.body with layer1 := none } } }
    some (⟨bottleneck_transformer, l1.decoder, m2.backbone,
      ⟨m.rpn.sizes, m.rpn.aspect_ratios, m.rpn.head, m.rpn.forward⟩,
      m.roi_heads, m.postprocess⟩, m2)
  | none => none

/-- `split_rcnn_model` (lines 245-251): builds the quantizer/dequantizer
bottleneck transformers when a quantization bit-width is given (`None`
otherwise), constructs the head and then the tail on the same model object,
and returns both.  `qenc`/`qdec` stand for `Compose([Quantizer(num_bits)])`
and `Compose([Dequantizer(num_bits)])`, whose code (`structure.transformer`)
is not under `src/`.  The mutated model is returned as well (`del model`
only drops the local name). -/
def split_rcnn_model (qenc qdec : ℕ → T → T) (m : RcnnModel T P D E L RH)
    (quantization : Option ℕ) :
    Option (RcnnHead T E × RcnnTail T P D E L RH × RcnnModel T P D E L RH) :=
  let encoder_transformer := quantization.map (fun n => qenc n)
  let decoder_transformer := quantization.map (fun n => qdec n)
  match RcnnHead.init m encoder_transformer with
  | none => none
  | some (head_model, m1) =>
    match RcnnTail.init m1 decoder_transformer with
    | none => none
    | some (tail_model, m2) => some (head_model, tail_model, m2)

/-- `RcnnHead.forward` (lines 24-38): records the original image sizes,
applies the transform, the stem and the layer1 encoder (with the
ext-classifier early stop when present), optionally the bottleneck
transformer, and returns the bottleneck tensor with the shape/size
metadata. -/
def RcnnHead.forward (hd : RcnnHead T E) (images : List (InputImage T)) :
    Option (T × List ℕ × List (ℕ × ℕ) × List (ℕ × ℕ)) :=
  let original_image_sizes := images.map (fun i => (i.height, i.width))
  let ti := hd.transform images
  let z0 := hd.layer0 ti.tensors
  let zo : Option T :=
    match hd.layer1_encoder.ext_classifier with
    | some _ => (hd.layer1_encoder.runExt z0).1
    | none => some (hd.layer1_encoder.run z0)
  match zo with
  | none => none
  | some z =>
    let z1 := match hd.bottleneck_transformer with
      | some f => f z
      | none => z
    some (z1, ti.tensorsShape, ti.image_sizes, original_image_sizes)

/-- The output of the tail / of the unsplit model: detections in eval mode,
the merged loss dictionary in training mode, or the hard-coded empty
prediction returned when the ext getter stops the inference
(`RcnnTail.forward` lines 223-227). -/
inductive RcnnOutput (D L : Type) where
  | detections (d : D)
  | losses (l : List (String × L))
  | emptyPred

/-- `RcnnTail.forward` (lines 212-242): optionally dequantizes, applies the
layer1 decoder, runs the remaining backbone, assembles the feature dict with
the raw layer1 feature first, runs the modified RPN on the supplied metadata
and the RoI heads, and returns the postprocessed detections (eval) or the
loss dict updated with detector then proposal losses (training).  The
`isinstance(features, torch.Tensor)` branch (line 229) is unreachable here:
`features` is a keyed list by construction.  A `none` result models a raised
exception (iterating over a `None` feature dict in training mode). -/
def RcnnTail.forward (tl : RcnnTail T P D E L RH) (training : Bool) (z : T)
    (tensors_shape : List ℕ) (image_sizes original_image_sizes : List (ℕ × ℕ)) :
    Option (RcnnOutput D L) :=
  let z1 := match tl.bottleneck_transformer with
    | some f => f z
    | none => z
  let layer1_feature := tl.layer1_decoder z1
  let subo : Option (List (String × T)) :=
    if tl.sub_backbone.extGetter then (tl.sub_backbone.runRestExt layer1_feature).1
    else some (tl.sub_backbone.runRest layer1_feature)
  match subo with
  | none => if training = false then some RcnnOutput.emptyPred else none
  | some sub_features =>
    let features := ("layer1", layer1_feature) :: sub_features
    let rp := tl.rpn.forward image_sizes tensors_shape features
    let rh := tl.roi_heads features rp.1 image_sizes
    if training = true then some (RcnnOutput.losses (rh.2 ++ rp.2))
    else some (RcnnOutput.detections (tl.postprocess rh.1 image_sizes original_image_sizes))

/-- Head-then-tail composition: run the head on a batch of images and feed
its outputs (bottleneck tensor, tensor shape, image sizes, original image
sizes) to the tail. -/
def head_tail_forward (hd : RcnnHead T E) (tl : RcnnTail T P D E L RH)
    (training : Bool) (images : List (InputImage T)) : Option (RcnnOutput D L) :=
  match RcnnHead.forward hd images with
  | none => none
  | some (z, ts, isz, osz) => RcnnTail.forward tl training z ts isz osz

/-- Modelled from the spec: the unsplit detection model's forward pass.  The
unsplit model's class (torchvision `GeneralizedRCNN` with the custom
split-layer backbone, `models/org/rcnn.py`) is not under `src/`; per the spec
(sections 2 and 4.1) its forward is the sequential pipeline transform → stem
→ layer1 encoder → layer1 decoder → remaining backbone with feature pyramid →
region-proposal network → detection heads → postprocess, where the custom
backbone's feature dict is the raw layer1 output together with the remaining
layers' pyramid outputs, and floating point is idealized as exact
arithmetic.  `none` when the model lacks the documented structure. -/
def original_rcnn_forward (m : RcnnModel T P D E L RH) (training : Bool)
    (images : List (InputImage T)) : Option (RcnnOutput D L) :=
  match m.backbone.body.conv1, m.backbone.body.bn1, m.backbone.body.relu,
      m.backbone.body.maxpool, m.backbone.body.layer1 with
  | some c, some b, some r, some mp, some l1 =>
    let original_image_sizes := images.map (fun i => (i.height, i.width))
    let ti := m.transform images
    let z := mp (r (b (c ti.tensors)))
    let x := l1.decoder (l1.encoder.run z)
    let features := ("layer1", x) :: m.backbone.runRest x
    let rp := m.rpn.forward ti.image_sizes ti.tensorsShape features
    let rh := m.roi_heads features rp.1 ti.image_sizes
    if training = true then some (RcnnOutput.losses (rh.2 ++ rp.2))
    else some (RcnnOutput.detections (m.postprocess rh.1 ti.image_sizes original_image_sizes))
  | _, _, _, _, _ => none

/-- The model object after the full split: both the stem modules and
`layer1` have been deleted from its backbone body. -/
def rcnn_after_split (m : RcnnModel T P D E L RH) : RcnnModel T P D E L RH :=
  { m with backbone := { m.backbone with body :=
    ⟨none, none, none, none, none⟩ } }

/-! ## Claims -/

/-- Claim C5: `get_model` raises a configuration error (ValueError) at setup
if and only if the configured model type is neither a key of the R-CNN
model-class dictionary nor a string starting with "yolo"; for every
recognized model type no error is raised and a model instance is
returned. -/
theorem get_model_error_iff (rcnn_keys : List String) (model_type : String) :
    ((∃ e, get_model rcnn_keys model_type = Except.error e) ↔
      (model_type ∉ rcnn_keys ∧ model_type.startsWith "yolo" = false)) ∧
    ((∃ k, get_model rcnn_keys model_type = Except.ok k) ↔
      (model_type ∈ rcnn_keys ∨ model_type.startsWith "yolo" = true)) := by
  unfold get_model
  by_cases h1 : model_type ∈ rcnn_keys
  · simp [h1]
  · by_cases h2 : model_type.startsWith "yolo"
    · simp [h1, h2]
    · simp [h1, h2]

/-- Claim C6: calling `load_ckpt` with a checkpoint path at which no file
exists returns `(None, None)` without raising, and the passed model,
optimizer and lr_scheduler (when given) are left completely unchanged, so
training starts from scratch. -/
theorem load_ckpt_missing_file (fs : String → Option (Ckpt M O S C A))
    (ckpt_file_path : String) (model : Option M) (optimizer : Option O)
    (lr_scheduler : Option S) (h : fs ckpt_file_path = none) :
    load_ckpt fs ckpt_file_path model optimizer lr_scheduler =
      ⟨model, optimizer, lr_scheduler, (none, none)⟩ := by
  unfold load_ckpt
  rw [h]

/-- Witness for claim C6 at a concrete missing file. -/
theorem load_ckpt_missing_file_witness :
    load_ckpt (fun _ => none) "resnet50.pt" (some 1) (some 2) (some 3) =
      (⟨some 1, some 2, some 3, (none, none)⟩ : LoadOut ℕ ℕ ℕ ℕ ℕ) :=
  load_ckpt_missing_file (fun _ => none) "resnet50.pt" (some 1) (some 2)
    (some 3) rfl

/-- Claim C7 counterexample: with `distill_backbone_only = True`, the flag
state in which an epoch's validation phase runs (after the train phase's
post-mutation, `distill` lines 92-93) still has the teacher's
`distill_backbone_only` set: the flag is NOT toggled back on both models
after the train phase, contradicting the claim that the toggle-back happens
on both models after each phase. -/
theorem distill_teacher_flag_not_reset :
    ¬ (distill_epoch_flags true false ⟨false, false, false⟩).teacher_dbo = false := by
  decide

/-- Claim C7 (amended): in every epoch of `distill`, `distill_backbone_only`
is set on both the teacher and the student before the train phase (and the
student's bottleneck transformer is disabled); after the train phase only
the student's flag is reset to `False` (and the student's bottleneck
transformer restored) while the teacher's flag keeps the configured value
through the epoch's validation; both flags are reset to `False` only by the
top-level `evaluate` after training. -/
theorem distill_flag_toggling (dbo ubt : Bool) (s : FlagState) :
    distill_pre_train dbo s = ⟨dbo, dbo, false⟩ ∧
    distill_epoch_flags dbo ubt s = ⟨dbo, false, ubt⟩ ∧
    evaluate_flags ubt s = ⟨false, false, ubt⟩ :=
  ⟨rfl, rfl, rfl⟩

/-- Claim C8: `distill_model` installs a per-iteration warmup scheduler only
when the epoch is 0, with `warmup_iters = min(1000, len(data_loader) - 1)`
and `warmup_factor = 1/1000`, stepping it once per batch; for every epoch
strictly greater than 0 no per-iteration learning-rate step occurs. -/
theorem warmup_epoch_zero_only (n e : ℕ) (he : 0 < e) :
    distill_model_warmup 0 n = some (min 1000 ((n : ℤ) - 1), 1 / 1000) ∧
    per_iteration_lr_steps 0 n = n ∧
    distill_model_warmup e n = none ∧
    per_iteration_lr_steps e n = 0 := by
  have hne : e ≠ 0 := Nat.pos_iff_ne_zero.mp he
  refine ⟨rfl, rfl, ?_, ?_⟩ <;>
    simp [distill_model_warmup, per_iteration_lr_steps, hne]

/-- Witness for claim C8 at a concrete loader length and epoch. -/
theorem warmup_epoch_zero_only_witness :
    distill_model_warmup 0 5 = some (4, 1 / 1000) ∧
    per_iteration_lr_steps 0 5 = 5 ∧
    distill_model_warmup 3 5 = none ∧
    per_iteration_lr_steps 3 5 = 0 := by
  have h := warmup_epoch_zero_only 5 3 (by decide)
  exact ⟨by rw [h.1]; rfl, h.2.1, h.2.2.1, h.2.2.2⟩

/-- Claim C4: among the workers running the training loop, a checkpoint
write is performed only by the designated main worker: on a non-main worker
the per-epoch checkpoint persistence step is a no-op (state unchanged,
nothing written) regardless of whether the validation metric improved, and
even a direct save on a non-main worker leaves the checkpoint storage
untouched. -/
theorem non_main_worker_ckpt_noop (model : M) (optimizer : O)
    (lr_scheduler : S) (config : C) (args : A) (ckpt_file_path : String)
    (val_map best : ℚ) (st : DistillState M O S C A)
    (fs : String → Option (TrainCkpt M O S C A)) :
    distill_epoch_step false model optimizer lr_scheduler config args
        ckpt_file_path val_map st = (st, false) ∧
    models_save_ckpt false model optimizer lr_scheduler best config args
        ckpt_file_path fs = fs := by
  constructor
  · unfold distill_epoch_step
    rw [if_neg]
    intro h
    exact absurd h.2 (by decide)
  · rfl

/-- Claim C2: in every epoch of the training loop in `distill` (on the main
worker, the only one that writes, see `non_main_worker_ckpt_noop`), the best
checkpoint is overwritten iff the epoch's validation bbox mAP is strictly
greater than the stored best value; on improvement the stored best becomes
the new mAP and the written checkpoint records it; on non-improvement the
state and the checkpoint storage are untouched and the loop proceeds. -/
theorem distill_best_ckpt_update_iff (model : M) (optimizer : O)
    (lr_scheduler : S) (config : C) (args : A) (ckpt_file_path : String)
    (val_map : ℚ) (st : DistillState M O S C A) :
    ((distill_epoch_step true model optimizer lr_scheduler config args
        ckpt_file_path val_map st).2 = true ↔ st.best < val_map) ∧
    (st.best < val_map →
      (distill_epoch_step true model optimizer lr_scheduler config args
          ckpt_file_path val_map st).1.best = val_map ∧
      (distill_epoch_step true model optimizer lr_scheduler config args
          ckpt_file_path val_map st).1.fs ckpt_file_path =
        some ⟨model, optimizer, lr_scheduler, val_map, config, args⟩) ∧
    (¬ st.best < val_map →
      distill_epoch_step true model optimizer lr_scheduler config args
        ckpt_file_path val_map st = (st, false)) := by
  unfold distill_epoch_step models_save_ckpt save_on_master
  by_cases h : st.best < val_map
  · simp [h]
  · simp [h]

/-- Witness for claim C2 at the spec's concrete metrics: stored best 0.351,
new mAP 0.352 overwrites (best and persisted value become 0.352); stored
best 0.351, new mAP 0.350 leaves everything untouched. -/
theorem distill_best_ckpt_update_iff_witness :
    (distill_epoch_step true (1 : ℕ) (2 : ℕ) (3 : ℕ) (4 : ℕ) (5 : ℕ)
        "student.pt" 0.352 ⟨0.351, fun _ => none⟩).2 = true ∧
    (distill_epoch_step true (1 : ℕ) (2 : ℕ) (3 : ℕ) (4 : ℕ) (5 : ℕ)
        "student.pt" 0.352 ⟨0.351, fun _ => none⟩).1.best = 0.352 ∧
    (distill_epoch_step true (1 : ℕ) (2 : ℕ) (3 : ℕ) (4 : ℕ) (5 : ℕ)
        "student.pt" 0.352 ⟨0.351, fun _ => none⟩).1.fs "student.pt" =
      some ⟨1, 2, 3, 0.352, 4, 5⟩ ∧
    distill_epoch_step true (1 : ℕ) (2 : ℕ) (3 : ℕ) (4 : ℕ) (5 : ℕ)
        "student.pt" 0.350 ⟨0.351, fun _ => none⟩ =
      (⟨0.351, fun _ => none⟩, false) := by
  have h1 := distill_best_ckpt_update_iff (1 : ℕ) (2 : ℕ) (3 : ℕ) (4 : ℕ)
    (5 : ℕ) "student.pt" 0.352 ⟨0.351, fun _ => none⟩
  have h2 := distill_best_ckpt_update_iff (1 : ℕ) (2 : ℕ) (3 : ℕ) (4 : ℕ)
    (5 : ℕ) "student.pt" 0.350 ⟨0.351, fun _ => none⟩
  have hlt : (0.351 : ℚ) < 0.352 := by norm_num
  have hnlt : ¬ (0.351 : ℚ) < 0.350 := by norm_num
  exact ⟨h1.1.mpr hlt, (h1.2.1 hlt).1, (h1.2.1 hlt).2, h2.2.2 hnlt⟩

/-- Claim C3 counterexample: the dictionary persisted by
`model_util.save_ckpt` at a concrete input contains no best-metric entry,
and loading that checkpoint back returns only the config and args — the best
metric is neither persisted nor restored, refuting the claim that
save-then-load round-trips the recorded best metric and that the persisted
structure carries it. -/
theorem save_ckpt_carries_no_best_metric :
    (save_ckpt_dict 1 2 3 4 5 : List (String × CkptEntry ℕ ℕ ℕ ℕ ℕ ℚ)).all
        (fun e => !(e.2.isBest)) = true ∧
    (load_ckpt (save_ckpt true (1 : ℕ) (2 : ℕ) (3 : ℕ) (4 : ℕ) (5 : ℕ)
        "student.pt" (fun _ => none)) "student.pt"
        (some 9) (some 9) (some 9)).ret = (some 4, some 5) := by
  constructor
  · rfl
  · simp [load_ckpt, save_ckpt, save_on_master]

/-- Claim C3 (amended): `save_ckpt` followed by `load_ckpt` on the same path
(on the main worker, where the save actually writes) restores the model
parameters, the optimizer state and the scheduler state exactly and returns
the config and args; the persisted structure has exactly the fields `model`,
`optimizer`, `lr_scheduler`, `config`, `args` — the best metric is not part
of it and is not restored. -/
theorem save_then_load_roundtrip (model : M) (optimizer : O)
    (lr_scheduler : S) (config : C) (args : A) (path : String)
    (fs : String → Option (Ckpt M O S C A)) (m0 : M) (o0 : O) (s0 : S) :
    load_ckpt (save_ckpt true model optimizer lr_scheduler config args path fs)
        path (some m0) (some o0) (some s0) =
      ⟨some model, some optimizer, some lr_scheduler, (some config, some args)⟩ ∧
    (save_ckpt_dict model optimizer lr_scheduler config args :
        List (String × CkptEntry M O S C A ℚ)).all (fun e => !(e.2.isBest)) = true := by
  constructor
  · simp [load_ckpt, save_ckpt, save_on_master]
  · rfl

/-- Invariant of the epoch fold of `distill`: from a nonnegative best value,
the best stays nonnegative, every mAP logged as written is either inherited
from the incoming log or strictly positive, and an all-zero sequence of
validation mAPs changes nothing. -/
lemma distill_fold_props (is_main : Bool) (model : M) (optimizer : O)
    (lr_scheduler : S) (config : C) (args : A) (ckpt_file_path : String) :
    ∀ (maps : List ℚ) (st : DistillState M O S C A) (log : List ℚ),
      0 ≤ st.best →
      0 ≤ (maps.foldl (distill_fold_step is_main model optimizer lr_scheduler
          config args ckpt_file_path) (st, log)).1.best ∧
      (∀ v ∈ (maps.foldl (distill_fold_step is_main model optimizer
          lr_scheduler config args ckpt_file_path) (st, log)).2,
        v ∈ log ∨ 0 < v) ∧
      ((∀ v ∈ maps, v = 0) →
        maps.foldl (distill_fold_step is_main model optimizer lr_scheduler
          config args ckpt_file_path) (st, log) = (st, log)) := by
  intro maps
  induction maps with
  | nil => exact fun st log h => ⟨h, fun v hv => Or.inl hv, fun _ => rfl⟩
  | cons v maps ih =>
    intro st log h
    rw [List.foldl_cons]
    by_cases hc : st.best < v ∧ is_main = true
    · have hv : 0 < v := lt_of_le_of_lt h hc.1
      have hstep : distill_fold_step is_main model optimizer lr_scheduler
          config args ckpt_file_path (st, log) v =
          (⟨v, models_save_ckpt is_main model optimizer lr_scheduler v config
            args ckpt_file_path st.fs⟩, log ++ [v]) := by
        simp [distill_fold_step, distill_epoch_step, hc]
      rw [hstep]
      obtain ⟨h1, h2, h3⟩ := ih ⟨v, models_save_ckpt is_main model optimizer
        lr_scheduler v config args ckpt_file_path st.fs⟩ (log ++ [v]) (le_of_lt hv)
      refine ⟨h1, fun w hw => ?_, fun hz => ?_⟩
      · rcases h2 w hw with hm | hp
        · rcases List.mem_append.mp hm with hm' | hm'
          · exact Or.inl hm'
          · rw [List.mem_singleton.mp hm']
            exact Or.inr hv
        · exact Or.inr hp
      · exact absurd (hz v (List.mem_cons_self v maps)) (ne_of_gt hv)
    · have hstep : distill_fold_step is_main model optimizer lr_scheduler
          config args ckpt_file_path (st, log) v = (st, log) := by
        simp [distill_fold_step, distill_epoch_step, hc]
      rw [hstep]
      obtain ⟨h1, h2, h3⟩ := ih st log h
      exact ⟨h1, h2, fun hz => h3 fun w hw => hz w (List.mem_cons_of_mem v hw)⟩

/-- Claim C10: when no checkpoint file exists at the student checkpoint path
at the start of `distill`, the best validation mAP is initialized to 0;
consequently a run whose validation bbox mAP is 0 at every epoch never
persists any checkpoint (the storage is untouched and no write occurs), and
any checkpoint write — in particular the first — happens only in an epoch
whose validation bbox mAP is strictly positive. -/
theorem distill_fresh_run_writes_only_positive (is_main : Bool) (model : M)
    (optimizer : O) (lr_scheduler : S) (config : C) (args : A)
    (ckpt_file_path : String) (fs : String → Option (TrainCkpt M O S C A))
    (maps : List ℚ) (hmiss : fs ckpt_file_path = none) :
    distill_init_best fs ckpt_file_path = 0 ∧
    (∀ v ∈ (distill_run is_main model optimizer lr_scheduler config args
        ckpt_file_path fs maps).2, 0 < v) ∧
    ((∀ v ∈ maps, v = 0) →
      distill_run is_main model optimizer lr_scheduler config args
        ckpt_file_path fs maps = (⟨0, fs⟩, [])) := by
  have hinit : distill_init_best fs ckpt_file_path = 0 := by
    unfold distill_init_best
    rw [hmiss]
  obtain ⟨h1, h2, h3⟩ := distill_fold_props is_main model optimizer
    lr_scheduler config args ckpt_file_path maps
    ⟨distill_init_best fs ckpt_file_path, fs⟩ [] (le_of_eq hinit.symm)
  refine ⟨hinit, fun v hv => ?_, fun hz => ?_⟩
  · rcases h2 v hv with hm | hp
    · exact absurd hm (List.not_mem_nil v)
    · exact hp
  · unfold distill_run
    rw [h3 hz, hinit]

/-- Witness for claim C10: a fresh run (no file at the path) whose two
epochs both report mAP 0 initializes best to 0, writes nothing and leaves
the storage empty. -/
theorem distill_fresh_run_writes_only_positive_witness :
    distill_init_best (fun _ => none : String → Option (TrainCkpt ℕ ℕ ℕ ℕ ℕ))
        "student.pt" = 0 ∧
    distill_run true (1 : ℕ) (2 : ℕ) (3 : ℕ) (4 : ℕ) (5 : ℕ) "student.pt"
        (fun _ => none) [0, 0] = (⟨0, fun _ => none⟩, []) := by
  have h := distill_fresh_run_writes_only_positive true (1 : ℕ) (2 : ℕ)
    (3 : ℕ) (4 : ℕ) (5 : ℕ) "student.pt" (fun _ => none) [0, 0] rfl
  exact ⟨h.1, h.2.2 (by intro v hv; simpa using hv)⟩

/-- Claim C1: for every detection model with the documented encoder/decoder
split-layer structure, `split_rcnn_model` with `quantization = None` inserts
no codec transform, and running the head on any fixed input and feeding its
outputs (bottleneck tensor, tensor shape, image sizes, original image sizes)
to the tail produces exactly the unsplit model's forward pass on the same
input (floating point idealized as exact arithmetic, so the floating-point
tolerance becomes equality); a model lacking the documented structure makes
both sides undefined alike.  Stated away from the ext-classifier early-exit
paths, which the unsplit pipeline of the spec does not have. -/
theorem split_head_tail_equiv (qenc qdec : ℕ → T → T)
    (m : RcnnModel T P D E L RH) (training : Bool)
    (images : List (InputImage T))
    (hEnc : ∀ l1, m.backbone.body.layer1 = some l1 →
      l1.encoder.ext_classifier = none)
    (hExt : m.backbone.extGetter = false) :
    (split_rcnn_model qenc qdec m none).map
        (fun x => head_tail_forward x.1 x.2.1 training images) =
      (original_rcnn_forward m training images).map some := by
  obtain ⟨tr, pp, ⟨⟨c0, b0, r0, mp0, l10⟩, eg, rr, rre⟩, rpn0, roi0⟩ := m
  subst hExt
  rcases c0 with _ | c <;> rcases b0 with _ | b <;> rcases r0 with _ | r <;>
    rcases mp0 with _ | mp <;> rcases l10 with _ | l1
  all_goals
    first
    | rfl
    | (obtain ⟨⟨extc, runp, rune⟩, dec⟩ := l1
       have hE : extc = none := hEnc ⟨⟨extc, runp, rune⟩, dec⟩ rfl
       subst hE
       cases training <;> rfl)

/-- Stem modules of the concrete witness model. -/
def wStem1 : ℕ → ℕ := fun t => t + 1

/-- Second stem module of the concrete witness model. -/
def wStem2 : ℕ → ℕ := fun t => t * 2

/-- Third stem module of the concrete witness model. -/
def wStem3 : ℕ → ℕ := fun t => t + 3

/-- Fourth stem module of the concrete witness model. -/
def wStem4 : ℕ → ℕ := fun t => t * 5

/-- Split layer of the concrete witness model (no ext classifier). -/
def wL1 : SplitLayer1 ℕ ℕ :=
  ⟨⟨none, fun t => t + 11, fun t => (some t, 0)⟩, fun t => t + 13⟩

/-- A concrete detection model over natural-number tensors, used to witness
the split theorems. -/
def wModel : RcnnModel ℕ ℕ ℕ ℕ ℕ ℕ :=
  ⟨fun imgs => ⟨imgs.length + 100, [imgs.length, 3, 64, 64],
      imgs.map (fun i => (i.height, i.width))⟩,
   fun d _ _ => d + 7,
   ⟨⟨some wStem1, some wStem2, some wStem3, some wStem4, some wL1⟩, false,
    fun t => [("layer2", t + 1)], fun t => (some [("layer2", t + 1)], 0)⟩,
   ⟨[32, 64], [1, 2], 42,
    fun isz tsh fs => (fs.length + isz.length + tsh.length, [])⟩,
   fun fs p isz => (p + fs.length + isz.length, [])⟩

/-- A concrete image batch for the split witnesses. -/
def wImages : List (InputImage ℕ) := [⟨5, 32, 48⟩, ⟨6, 24, 40⟩]

/-- Witness for claim C1: on the concrete witness model and image batch the
split composition equals the unsplit forward. -/
theorem split_head_tail_equiv_witness :
    (split_rcnn_model (fun _ t => t) (fun _ t => t) wModel none).map
        (fun x => head_tail_forward x.1 x.2.1 false wImages) =
      (original_rcnn_forward wModel false wImages).map some :=
  split_head_tail_equiv (fun _ t => t) (fun _ t => t) wModel false wImages
    (fun l1 h => by cases h; rfl) rfl

/-- Claim C9: `split_rcnn_model` mutates its input model in place:
constructing the head deletes the backbone stem modules (`conv1`, `bn1`,
`relu`, `maxpool`) from the original model's backbone, constructing the tail
deletes `backbone.body.layer1` from it, and the returned head and tail alias
the original model's remaining sub-modules (transform, RPN components
including its head, RoI heads), so after the split the original model object
has lost its entire stem and split layer. -/
theorem split_rcnn_model_mutates (qenc qdec : ℕ → T → T)
    (m : RcnnModel T P D E L RH) (quantization : Option ℕ)
    (c b r mp : T → T) (l1 : SplitLayer1 T E)
    (hc : m.backbone.body.conv1 = some c)
    (hb : m.backbone.body.bn1 = some b)
    (hr : m.backbone.body.relu = some r)
    (hm : m.backbone.body.maxpool = some mp)
    (hl : m.backbone.body.layer1 = some l1) :
    ∃ hd m1 tl,
      RcnnHead.init m (quantization.map (fun n => qenc n)) = some (hd, m1) ∧
      m1.backbone.body = ⟨none, none, none, none, some l1⟩ ∧
      RcnnTail.init m1 (quantization.map (fun n => qdec n)) =
        some (tl, rcnn_after_split m) ∧
      split_rcnn_model qenc qdec m quantization =
        some (hd, tl, rcnn_after_split m) ∧
      (rcnn_after_split m).backbone.body = ⟨none, none, none, none, none⟩ ∧
      hd.transform = m.transform ∧
      hd.layer1_encoder = l1.encoder ∧
      tl.layer1_decoder = l1.decoder ∧
      tl.roi_heads = m.roi_heads ∧
      tl.postprocess = m.postprocess ∧
      tl.rpn.head = m.rpn.head ∧
      tl.rpn.forward = m.rpn.forward ∧
      tl.sub_backbone.extGetter = m.backbone.extGetter ∧
      tl.sub_backbone.runRest = m.backbone.runRest ∧
      tl.sub_backbone.body.layer1 = none := by
  obtain ⟨tr, pp, ⟨⟨c0, b0, r0, mp0, l10⟩, eg, rr, rre⟩, rpn0, roi0⟩ := m
  cases hc
  cases hb
  cases hr
  cases hm
  cases hl
  exact ⟨_, _, _, rfl, rfl, rfl, rfl, rfl, rfl, rfl, rfl, rfl, rfl, rfl,
    rfl, rfl, rfl, rfl⟩

/-- Witness for claim C9 on the concrete witness model. -/
theorem split_rcnn_model_mutates_witness :
    ∃ hd m1 tl,
      RcnnHead.init wModel none = some (hd, m1) ∧
      m1.backbone.body = ⟨none, none, none, none, some wL1⟩ ∧
      RcnnTail.init m1 none = some (tl, rcnn_after_split wModel) ∧
      split_rcnn_model (fun _ t => t) (fun _ t => t) wModel none =
        some (hd, tl, rcnn_after_split wModel) ∧
      (rcnn_after_split wModel).backbone.body = ⟨none, none, none, none, none⟩ ∧
      hd.transform = wModel.transform ∧
      hd.layer1_encoder = wL1.encoder ∧
      tl.layer1_decoder = wL1.decoder ∧
      tl.roi_heads = wModel.roi_heads ∧
      tl.postprocess = wModel.postprocess ∧
      tl.rpn.head = wModel.rpn.head ∧
      tl.rpn.forward = wModel.rpn.forward ∧
      tl.sub_backbone.extGetter = wModel.backbone.extGetter ∧
      tl.sub_backbone.runRest = wModel.backbone.runRest ∧
      tl.sub_backbone.body.layer1 = none :=
  split_rcnn_model_mutates (fun _ t => t) (fun _ t => t) wModel none
    wStem1 wStem2 wStem3 wStem4 wL1 rfl rfl rfl rfl rfl
